import Mathlib

/-!
Shallow embedding of the book-swap backend's core logic: the swap lifecycle
(routes/swaps.js together with the schema hooks in models/Swap.js), the
review/rating engine (routes/reviews.js and models/Review.js), and the book
ownership helpers (models/Book.js).  Documents are modelled as records,
collections as association lists from numeric ids, and each route handler as
a function from a database state to `Except` of an error or the new state;
error responses in the source all occur before any write, so an `error`
result leaves the state untouched exactly as the code does.
-/

namespace BookSwap

/-- Error outcomes of the HTTP handlers, one constructor per distinct
rejection path in the source. -/
inductive ApiError where
  | notFound
  | forbidden
  | invalidTransition
  | expired
  | preconditionFailed
  | conflict
  | ownBook
  | invalidReviewee
  | validationFailed
  | serverError
deriving Repr, DecidableEq, BEq

/-- Book document (models/Book.js): the fields the swap workflow reads or
writes, plus representative descriptive fields for frame properties.
`owner` is nullable (`required: false, default: null`). -/
structure Book where
  owner : Option Nat
  ownerEmail : String
  title : String
  isAvailable : Bool
  isActive : Bool
  viewCount : Nat
  swapCount : Nat
deriving Repr, DecidableEq

/-- `bookSchema.methods.canEdit`: `this.owner.toString() === userId.toString()`.
When `owner` is null, `toString()` throws a TypeError, modelled as `.error ()`. -/
def Book.canEdit (b : Book) (userId : Nat) : Except Unit Bool :=
  match b.owner with
  | none => .error ()
  | some o => .ok (decide (o = userId))

/-- Swap status enum from models/Swap.js. -/
inductive SwapStatus where
  | pending
  | accepted
  | declined
  | completed
  | cancelled
deriving Repr, DecidableEq, BEq

/-- The three terminal states of §4.1 of the spec. -/
def SwapStatus.isTerminal : SwapStatus → Bool
  | .declined => true
  | .completed => true
  | .cancelled => true
  | _ => false

/-- Swap document (models/Swap.js). Times are naturals (milliseconds). -/
structure Swap where
  requester : Nat
  owner : Nat
  requestedBook : Nat
  offeredBook : Nat
  status : SwapStatus
  message : String
  responseMessage : String
  meetingLocation : Option String
  meetingDate : Option Nat
  completedAt : Option Nat
  expiresAt : Nat
  isActive : Bool
deriving Repr, DecidableEq

/-- `swapSchema.methods.isExpired`: `this.expiresAt < new Date() && this.status === 'pending'`. -/
def Swap.isExpired (s : Swap) (now : Nat) : Bool :=
  decide (s.expiresAt < now) && decide (s.status = SwapStatus.pending)

/-- `swapSchema.methods.canModify`: requester or owner. -/
def Swap.canModify (s : Swap) (userId : Nat) : Bool :=
  decide (s.requester = userId) || decide (s.owner = userId)

/-- `swapSchema.methods.isOwner`. -/
def Swap.isOwner (s : Swap) (userId : Nat) : Bool :=
  decide (s.owner = userId)

/-- `swapSchema.methods.isRequester`. -/
def Swap.isRequester (s : Swap) (userId : Nat) : Bool :=
  decide (s.requester = userId)

/-- User document (models referenced from routes): the derived aggregate
fields plus the admin-role flag used by the review delete route. -/
structure User where
  username : String
  isAdmin : Bool
  rating : Rat
  totalRatings : Nat
  totalSwaps : Nat
deriving Repr, DecidableEq

/-- Review document (models/Review.js). -/
structure Review where
  reviewer : Nat
  reviewee : Nat
  swap : Nat
  rating : Nat
  comment : String
  isActive : Bool
deriving Repr, DecidableEq

/-- `findById`: first record with the given id, `none` when absent. -/
def findById {α : Type} (l : List (Nat × α)) (i : Nat) : Option α :=
  match l with
  | [] => none
  | (j, v) :: rest => if j = i then some v else findById rest i

/-- `findByIdAndUpdate`: rewrite the records with the given id in place;
a no-op when the id is absent, exactly as Mongoose returns null and writes
nothing. -/
def updateById {α : Type} (l : List (Nat × α)) (i : Nat) (f : α → α) :
    List (Nat × α) :=
  match l with
  | [] => []
  | (j, v) :: rest =>
    if j = i then (j, f v) :: updateById rest i f
    else (j, v) :: updateById rest i f

/-- The persistent state: the four collections the core logic touches. -/
structure DB where
  books : List (Nat × Book)
  users : List (Nat × User)
  swaps : List (Nat × Swap)
  reviews : List (Nat × Review)
deriving Repr, DecidableEq

/-- `Book.findByIdAndUpdate(id, { isAvailable: v })`. -/
def setBookAvailability (db : DB) (bid : Nat) (v : Bool) : DB :=
  { db with books := updateById db.books bid (fun b => { b with isAvailable := v }) }

/-- `Book.findByIdAndUpdate(id, { $inc: { swapCount: 1 } })`. -/
def incBookSwapCount (db : DB) (bid : Nat) : DB :=
  { db with books := updateById db.books bid (fun b => { b with swapCount := b.swapCount + 1 }) }

/-- `User.findByIdAndUpdate(id, { $inc: { totalSwaps: 1 } })`. -/
def incUserTotalSwaps (db : DB) (uid : Nat) : DB :=
  { db with users := updateById db.users uid (fun u => { u with totalSwaps := u.totalSwaps + 1 }) }

/-- `swapSchema.pre('save')` side effects when the status path was modified,
in the source's write order (requested book, offered book, requester, owner). -/
def applySwapHook (s : Swap) (db : DB) : DB :=
  match s.status with
  | .pending => db
  | .accepted =>
    setBookAvailability (setBookAvailability db s.requestedBook false) s.offeredBook false
  | .completed =>
    incUserTotalSwaps
      (incUserTotalSwaps
        (incBookSwapCount (incBookSwapCount db s.requestedBook) s.offeredBook)
        s.requester)
      s.owner
  | .declined =>
    setBookAvailability (setBookAvailability db s.requestedBook true) s.offeredBook true
  | .cancelled =>
    setBookAvailability (setBookAvailability db s.requestedBook true) s.offeredBook true

/-- `swap.save()` for an existing swap whose status was just assigned:
the pre-save hook runs, then the document is persisted. -/
def saveSwap (db : DB) (sid : Nat) (s : Swap) : DB :=
  let db1 := applySwapHook s db
  { db1 with swaps := updateById db1.swaps sid (fun _ => s) }

/-- `swap.save()` for a freshly constructed swap (status defaults to
pending, so the hook's pending branch is a no-op). -/
def saveNewSwap (db : DB) (sid : Nat) (s : Swap) : DB :=
  let db1 := applySwapHook s db
  { db1 with swaps := (sid, s) :: db1.swaps }

/-- The duplicate-request existence check of POST /api/swaps: a pending,
active swap for the identical (requester, requestedBook, offeredBook) triple. -/
def hasPendingDuplicate (swaps : List (Nat × Swap)) (uid rbid obid : Nat) : Bool :=
  swaps.any fun p =>
    decide (p.2.requester = uid) && decide (p.2.requestedBook = rbid) &&
    decide (p.2.offeredBook = obid) && decide (p.2.status = SwapStatus.pending) && p.2.isActive

/-- POST /api/swaps: availability checks, ownership checks (which throw into
the generic 500 handler on a null owner), duplicate check, then creation. -/
def createSwap (db : DB) (uid rbid obid : Nat) (message : String)
    (now newId : Nat) : Except ApiError DB :=
  match findById db.books rbid with
  | none => .error .preconditionFailed
  | some rb =>
    if !rb.isActive || !rb.isAvailable then .error .preconditionFailed
    else
      match findById db.books obid with
      | none => .error .preconditionFailed
      | some ob =>
        if !ob.isActive || !ob.isAvailable then .error .preconditionFailed
        else
          match ob.canEdit uid with
          | .error _ => .error .serverError
          | .ok ownsOffered =>
            if !ownsOffered then .error .forbidden
            else
              match rb.canEdit uid with
              | .error _ => .error .serverError
              | .ok ownsRequested =>
                if ownsRequested then .error .ownBook
                else if hasPendingDuplicate db.swaps uid rbid obid then .error .conflict
                else
                  match rb.owner with
                  | none => .error .serverError
                  | some ro =>
                    let s : Swap :=
                      { requester := uid
                        owner := ro
                        requestedBook := rbid
                        offeredBook := obid
                        status := .pending
                        message := message
                        responseMessage := ""
                        meetingLocation := none
                        meetingDate := none
                        completedAt := none
                        expiresAt := now + 604800000
                        isActive := true }
                    .ok (saveNewSwap db newId s)

/-- PUT /api/swaps/:id/accept. -/
def acceptSwap (db : DB) (uid sid now : Nat) (rmsg : String)
    (mloc : Option String) (mdate : Option Nat) : Except ApiError DB :=
  match findById db.swaps sid with
  | none => .error .notFound
  | some s =>
    if s.isOwner uid then
      if s.status = .pending then
        if s.isExpired now then .error .expired
        else
          let s2 : Swap :=
            { s with
              status := .accepted
              responseMessage := rmsg
              meetingLocation := (match mloc with | some l => some l | none => s.meetingLocation)
              meetingDate := (match mdate with | some d => some d | none => s.meetingDate) }
          .ok (saveSwap db sid s2)
      else .error .invalidTransition
    else .error .forbidden

/-- PUT /api/swaps/:id/decline. -/
def declineSwap (db : DB) (uid sid : Nat) (rmsg : String) : Except ApiError DB :=
  match findById db.swaps sid with
  | none => .error .notFound
  | some s =>
    if s.isOwner uid then
      if s.status = .pending then
        .ok (saveSwap db sid { s with status := .declined, responseMessage := rmsg })
      else .error .invalidTransition
    else .error .forbidden

/-- PUT /api/swaps/:id/complete. -/
def completeSwap (db : DB) (uid sid now : Nat) : Except ApiError DB :=
  match findById db.swaps sid with
  | none => .error .notFound
  | some s =>
    if s.canModify uid then
      if s.status = .accepted then
        .ok (saveSwap db sid { s with status := .completed, completedAt := some now })
      else .error .invalidTransition
    else .error .forbidden

/-- PUT /api/swaps/:id/cancel. -/
def cancelSwap (db : DB) (uid sid : Nat) : Except ApiError DB :=
  match findById db.swaps sid with
  | none => .error .notFound
  | some s =>
    if s.isRequester uid then
      if s.status = .pending ∨ s.status = .accepted then
        .ok (saveSwap db sid { s with status := .cancelled })
      else .error .invalidTransition
    else .error .forbidden

/-- JavaScript's `Math.round`: round half toward positive infinity,
`Math.round(y) = floor(y + 0.5)`. -/
def jsRound (q : Rat) : Int :=
  Rat.floor (q + 1 / 2)

/-- `Math.round(x * 10) / 10`: round to one decimal place. -/
def roundOneDecimal (q : Rat) : Rat :=
  ((jsRound (q * 10) : Int) : Rat) / 10

/-- `reviewSchema.statics.calculateUserRating`: aggregate over active
reviews with the given reviewee; average rounded to one decimal and count,
or (0, 0) when no such review exists. -/
def calculateUserRating (reviews : List (Nat × Review)) (userId : Nat) : Rat × Nat :=
  let rs := reviews.filter fun p => decide (p.2.reviewee = userId) && p.2.isActive
  if rs.length = 0 then (0, 0)
  else (roundOneDecimal ((rs.map fun p => ((p.2.rating : Nat) : Rat)).sum / (rs.length : Rat)),
        rs.length)

/-- The body of the rating hooks: write the recomputed aggregate back to
the reviewee's User record. -/
def updateUserRating (db : DB) (userId : Nat) : DB :=
  let rd := calculateUserRating db.reviews userId
  let users2 :=
    updateById db.users userId
      (fun u => { u with rating := rd.1, totalRatings := rd.2 })
  { db with users := users2 }

/-- `reviewSchema.post('save')`: recompute the reviewee's rating only when
the rating path was assigned or the document is new; otherwise do nothing. -/
def reviewPostSave (r : Review) (ratingModified isNew : Bool) (db : DB) : DB :=
  if ratingModified || isNew then updateUserRating db r.reviewee else db

/-- POST /api/reviews: validation, swap checks, party checks, duplicate
check (note: no isActive filter on the existing-review query), then
insertion followed by the post-save hook. -/
def createReview (db : DB) (uid swapId revieweeId rating : Nat)
    (comment : String) (newId : Nat) : Except ApiError DB :=
  if rating < 1 ∨ 5 < rating then .error .validationFailed
  else
    match findById db.swaps swapId with
    | none => .error .notFound
    | some s =>
      if s.status = .completed then
        if s.canModify uid then
          if decide (s.requester = revieweeId) && decide (s.owner = uid) ||
             decide (s.owner = revieweeId) && decide (s.requester = uid) then
            if db.reviews.any (fun p =>
                decide (p.2.reviewer = uid) && decide (p.2.reviewee = revieweeId) &&
                decide (p.2.swap = swapId)) then
              .error .conflict
            else
              let r : Review :=
                { reviewer := uid
                  reviewee := revieweeId
                  swap := swapId
                  rating := rating
                  comment := comment
                  isActive := true }
              let db1 := { db with reviews := (newId, r) :: db.reviews }
              .ok (reviewPostSave r true true db1)
          else .error .invalidReviewee
        else .error .forbidden
      else .error .preconditionFailed

/-- PUT /api/reviews/:id: only the reviewer may edit; the post-save hook
fires with the rating path modified exactly when a rating was supplied. -/
def updateReview (db : DB) (uid reviewId : Nat) (rating : Option Nat)
    (comment : Option String) : Except ApiError DB :=
  if (match rating with | some rt => decide (rt < 1 ∨ 5 < rt) | none => false) then
    .error .validationFailed
  else
    match findById db.reviews reviewId with
    | none => .error .notFound
    | some r =>
      if !r.isActive then .error .notFound
      else if decide (r.reviewer = uid) then
        let r2 : Review :=
          { r with
            rating := (match rating with | some rt => rt | none => r.rating)
            comment := (match comment with | some c => c | none => r.comment) }
        let db1 := { db with reviews := updateById db.reviews reviewId (fun _ => r2) }
        .ok (reviewPostSave r2 rating.isSome false db1)
      else .error .forbidden

/-- DELETE /api/reviews/:id (soft delete): sets isActive to false and saves;
the post-save hook fires with neither the rating path modified nor a new
document, and the post-remove hook never runs since nothing is removed. -/
def deleteReview (db : DB) (uid : Nat) (isAdmin : Bool) (reviewId : Nat) :
    Except ApiError DB :=
  match findById db.reviews reviewId with
  | none => .error .notFound
  | some r =>
    if !r.isActive then .error .notFound
    else if decide (r.reviewer = uid) || isAdmin then
      let r2 : Review := { r with isActive := false }
      let db1 := { db with reviews := updateById db.reviews reviewId (fun _ => r2) }
      .ok (reviewPostSave r2 false false db1)
    else .error .forbidden

/-- Projection of a handler result onto the successor state, for stating
closed facts about concrete runs. -/
def dbAfter : Except ApiError DB → Option DB
  | .ok d => some d
  | .error _ => none

/-- Projection of a handler result onto the error, for stating closed facts
about concrete runs. -/
def errAfter : Except ApiError DB → Option ApiError
  | .ok _ => none
  | .error e => some e

theorem findById_updateById_eq {α : Type} (l : List (Nat × α)) (i : Nat) (f : α → α) :
    findById (updateById l i f) i = (findById l i).map f := by
  induction l with
  | nil => rfl
  | cons hd tl ih =>
    obtain ⟨j, v⟩ := hd
    by_cases hj : j = i
    · subst hj
      simp [updateById, findById, ih]
    · simp [updateById, findById, hj, ih]

theorem findById_updateById_ne {α : Type} (l : List (Nat × α)) (i j : Nat) (f : α → α)
    (h : i ≠ j) : findById (updateById l j f) i = findById l i := by
  induction l with
  | nil => rfl
  | cons hd tl ih =>
    obtain ⟨k, v⟩ := hd
    by_cases hk : k = j
    · subst hk
      have hki : ¬ k = i := fun hc => h (hc ▸ rfl)
      simp [updateById, findById, hki, ih]
    · simp [updateById, findById, hk, ih]

theorem mem_of_findById {α : Type} (l : List (Nat × α)) (i : Nat) (v : α)
    (h : findById l i = some v) : (i, v) ∈ l := by
  induction l with
  | nil => simp [findById] at h
  | cons hd tl ih =>
    obtain ⟨j, w⟩ := hd
    by_cases hj : j = i
    · subst hj
      simp [findById] at h
      simp [h]
    · simp [findById, hj] at h
      exact List.mem_cons_of_mem _ (ih h)

/-- Baseline swap fixture for concrete runs. -/
def baseSwap : Swap :=
  { requester := 1
    owner := 2
    requestedBook := 10
    offeredBook := 11
    status := .pending
    message := ""
    responseMessage := ""
    meetingLocation := none
    meetingDate := none
    completedAt := none
    expiresAt := 1000
    isActive := true }

/-- Baseline book fixture for concrete runs. -/
def baseBook : Book :=
  { owner := some 2
    ownerEmail := "owner@example.com"
    title := "T"
    isAvailable := true
    isActive := true
    viewCount := 0
    swapCount := 0 }

/-- Baseline user fixture for concrete runs. -/
def baseUser : User :=
  { username := "u"
    isAdmin := false
    rating := 0
    totalRatings := 0
    totalSwaps := 0 }

/-- Claim C7: accepting a pending swap whose expiry has passed is rejected with the
expired error; no state is returned, so nothing is written. -/
theorem accept_expired_rejected
    (db : DB) (uid sid now : Nat) (s : Swap) (rmsg : String)
    (mloc : Option String) (mdate : Option Nat)
    (hs : findById db.swaps sid = some s)
    (hown : s.owner = uid)
    (hpend : s.status = SwapStatus.pending)
    (hexp : s.expiresAt < now) :
    acceptSwap db uid sid now rmsg mloc mdate = Except.error ApiError.expired := by
  unfold acceptSwap
  rw [hs]
  simp [Swap.isOwner, hown, hpend, Swap.isExpired, hexp]

def swapC7 : Swap := { baseSwap with expiresAt := 50 }

def dbC7 : DB := { books := [], users := [], swaps := [(1, swapC7)], reviews := [] }

theorem accept_expired_rejected_witness :
    (findById dbC7.swaps 1 = some swapC7 ∧ swapC7.owner = 2 ∧
     swapC7.status = SwapStatus.pending ∧ swapC7.expiresAt < 100) ∧
    acceptSwap dbC7 2 1 100 "" none none = Except.error ApiError.expired :=
  ⟨⟨rfl, rfl, rfl, by decide⟩,
   accept_expired_rejected dbC7 2 1 100 swapC7 "" none none rfl rfl rfl (by decide)⟩

/-- Claim C2: a swap in a terminal state (declined, completed, cancelled) can never
be moved out of it: accept, decline, complete and cancel all fail for every
actor, and for the actor the route authorizes the failure is the
wrong-source-state rejection. -/
theorem terminal_swap_immutable
    (db : DB) (uid sid now : Nat) (s : Swap) (rmsg : String)
    (mloc : Option String) (mdate : Option Nat)
    (hs : findById db.swaps sid = some s)
    (ht : s.status.isTerminal = true) :
    (∀ db2, acceptSwap db uid sid now rmsg mloc mdate ≠ Except.ok db2) ∧
    (∀ db2, declineSwap db uid sid rmsg ≠ Except.ok db2) ∧
    (∀ db2, completeSwap db uid sid now ≠ Except.ok db2) ∧
    (∀ db2, cancelSwap db uid sid ≠ Except.ok db2) ∧
    (s.owner = uid →
      acceptSwap db uid sid now rmsg mloc mdate = Except.error ApiError.invalidTransition) ∧
    (s.owner = uid →
      declineSwap db uid sid rmsg = Except.error ApiError.invalidTransition) ∧
    (s.requester = uid ∨ s.owner = uid →
      completeSwap db uid sid now = Except.error ApiError.invalidTransition) ∧
    (s.requester = uid →
      cancelSwap db uid sid = Except.error ApiError.invalidTransition) := by
  have hnp : s.status ≠ SwapStatus.pending := by
    intro hc; rw [hc] at ht; simp [SwapStatus.isTerminal] at ht
  have hna : s.status ≠ SwapStatus.accepted := by
    intro hc; rw [hc] at ht; simp [SwapStatus.isTerminal] at ht
  refine ⟨?_, ?_, ?_, ?_, ?_, ?_, ?_, ?_⟩
  · intro db2
    unfold acceptSwap
    rw [hs]
    by_cases ho : s.isOwner uid <;> simp [ho, hnp]
  · intro db2
    unfold declineSwap
    rw [hs]
    by_cases ho : s.isOwner uid <;> simp [ho, hnp]
  · intro db2
    unfold completeSwap
    rw [hs]
    by_cases hm : s.canModify uid <;> simp [hm, hna]
  · intro db2
    unfold cancelSwap
    rw [hs]
    by_cases hr : s.isRequester uid <;> simp [hr, hnp, hna]
  · intro hown0
    unfold acceptSwap
    rw [hs]
    simp [Swap.isOwner, hown0, hnp]
  · intro hown0
    unfold declineSwap
    rw [hs]
    simp [Swap.isOwner, hown0, hnp]
  · intro hpart
    have hcm : s.canModify uid = true := by
      cases hpart with
      | inl h => simp [Swap.canModify, h]
      | inr h => simp [Swap.canModify, h]
    unfold completeSwap
    rw [hs]
    simp [hcm, hna]
  · intro hreq0
    unfold cancelSwap
    rw [hs]
    simp [Swap.isRequester, hreq0, hnp, hna]

def swapC2 : Swap := { baseSwap with status := .completed }

def dbC2 : DB := { books := [], users := [], swaps := [(1, swapC2)], reviews := [] }

theorem terminal_swap_immutable_witness :
    (findById dbC2.swaps 1 = some swapC2 ∧ swapC2.status.isTerminal = true) ∧
    acceptSwap dbC2 2 1 99 "" none none = Except.error ApiError.invalidTransition ∧
    declineSwap dbC2 2 1 "" = Except.error ApiError.invalidTransition ∧
    completeSwap dbC2 1 1 99 = Except.error ApiError.invalidTransition ∧
    cancelSwap dbC2 1 1 = Except.error ApiError.invalidTransition :=
  ⟨⟨rfl, rfl⟩,
   (terminal_swap_immutable dbC2 2 1 99 swapC2 "" none none rfl rfl).2.2.2.2.1 rfl,
   (terminal_swap_immutable dbC2 2 1 99 swapC2 "" none none rfl rfl).2.2.2.2.2.1 rfl,
   (terminal_swap_immutable dbC2 1 1 99 swapC2 "" none none rfl rfl).2.2.2.2.2.2.1 (Or.inl rfl),
   (terminal_swap_immutable dbC2 1 1 99 swapC2 "" none none rfl rfl).2.2.2.2.2.2.2 rfl⟩

/-- Claim C4: accepting a pending, unexpired swap as the owner persists status
accepted and marks both referenced books unavailable. -/
theorem accept_pending_marks_books_unavailable
    (db : DB) (uid sid now : Nat) (s : Swap) (rb ob : Book) (rmsg : String)
    (mloc : Option String) (mdate : Option Nat)
    (hs : findById db.swaps sid = some s)
    (hown : s.owner = uid)
    (hpend : s.status = SwapStatus.pending)
    (hexp : ¬ s.expiresAt < now)
    (hbooks : s.requestedBook ≠ s.offeredBook)
    (hrb : findById db.books s.requestedBook = some rb)
    (hob : findById db.books s.offeredBook = some ob) :
    ∃ db2, acceptSwap db uid sid now rmsg mloc mdate = Except.ok db2 ∧
      (findById db2.swaps sid).map Swap.status = some SwapStatus.accepted ∧
      findById db2.books s.requestedBook = some { rb with isAvailable := false } ∧
      findById db2.books s.offeredBook = some { ob with isAvailable := false } := by
  have hrun : acceptSwap db uid sid now rmsg mloc mdate =
      Except.ok (saveSwap db sid
        { s with
          status := .accepted
          responseMessage := rmsg
          meetingLocation := (match mloc with | some l => some l | none => s.meetingLocation)
          meetingDate := (match mdate with | some d => some d | none => s.meetingDate) }) := by
    unfold acceptSwap
    rw [hs]
    simp [Swap.isOwner, hown, hpend, Swap.isExpired, hexp]
  refine ⟨_, hrun, ?_, ?_, ?_⟩
  · simp [saveSwap, applySwapHook, setBookAvailability,
      findById_updateById_eq, hs]
  · simp [saveSwap, applySwapHook, setBookAvailability,
      findById_updateById_eq, findById_updateById_ne _ _ _ _ hbooks, hrb]
  · simp [saveSwap, applySwapHook, setBookAvailability,
      findById_updateById_eq, findById_updateById_ne _ _ _ _ (Ne.symm hbooks), hob]

def bookC4r : Book := baseBook

def bookC4o : Book := { baseBook with owner := some 1 }

def dbC4 : DB :=
  { books := [(10, bookC4r), (11, bookC4o)]
    users := []
    swaps := [(1, baseSwap)]
    reviews := [] }

theorem accept_pending_marks_books_unavailable_witness :
    (findById dbC4.swaps 1 = some baseSwap ∧ baseSwap.owner = 2 ∧
     baseSwap.status = SwapStatus.pending ∧ ¬ baseSwap.expiresAt < 5 ∧
     baseSwap.requestedBook ≠ baseSwap.offeredBook ∧
     findById dbC4.books baseSwap.requestedBook = some bookC4r ∧
     findById dbC4.books baseSwap.offeredBook = some bookC4o) ∧
    (∃ db2, acceptSwap dbC4 2 1 5 "" none none = Except.ok db2 ∧
      (findById db2.swaps 1).map Swap.status = some SwapStatus.accepted ∧
      findById db2.books baseSwap.requestedBook = some { bookC4r with isAvailable := false } ∧
      findById db2.books baseSwap.offeredBook = some { bookC4o with isAvailable := false }) :=
  ⟨⟨rfl, rfl, rfl, by decide, by decide, rfl, rfl⟩,
   accept_pending_marks_books_unavailable dbC4 2 1 5 baseSwap bookC4r bookC4o "" none none
     rfl rfl rfl (by decide) (by decide) rfl rfl⟩

def dbC5x : DB :=
  { books := [(10, { baseBook with isAvailable := false }), (11, { baseBook with owner := some 1 })]
    users := []
    swaps := [(1, baseSwap)]
    reviews := [] }

/-- Claim C5 counterexample: declining a pending swap is not side-effect free on
books.  Here the requested book was unavailable before the decline and the
decline flips it to available, so a book field changed. -/
theorem decline_changes_book_availability :
    ((dbAfter (declineSwap dbC5x 2 1 "")).map
      (fun d => (findById d.books 10).map Book.isAvailable)) = some (some true) ∧
    (findById dbC5x.books 10).map Book.isAvailable = some false := by decide

/-- Claim C5 amended: declining a pending swap as the owner sets `isAvailable` to
true on both referenced books (a no-op when they were already available,
the normal case) and changes nothing else: no other book field, no other
book, no user, no review. -/
theorem decline_pending_sets_books_available
    (db : DB) (uid sid : Nat) (s : Swap) (rmsg : String)
    (hs : findById db.swaps sid = some s)
    (hown : s.owner = uid)
    (hpend : s.status = SwapStatus.pending)
    (hbooks : s.requestedBook ≠ s.offeredBook) :
    ∃ db2, declineSwap db uid sid rmsg = Except.ok db2 ∧
      findById db2.swaps sid = some { s with status := .declined, responseMessage := rmsg } ∧
      findById db2.books s.requestedBook =
        (findById db.books s.requestedBook).map (fun b => { b with isAvailable := true }) ∧
      findById db2.books s.offeredBook =
        (findById db.books s.offeredBook).map (fun b => { b with isAvailable := true }) ∧
      (∀ bid, bid ≠ s.requestedBook → bid ≠ s.offeredBook →
        findById db2.books bid = findById db.books bid) ∧
      db2.users = db.users ∧ db2.reviews = db.reviews := by
  have hrun : declineSwap db uid sid rmsg =
      Except.ok (saveSwap db sid { s with status := .declined, responseMessage := rmsg }) := by
    unfold declineSwap
    rw [hs]
    simp [Swap.isOwner, hown, hpend]
  refine ⟨_, hrun, ?_, ?_, ?_, ?_, rfl, rfl⟩
  · simp [saveSwap, applySwapHook, setBookAvailability, findById_updateById_eq, hs]
  · simp [saveSwap, applySwapHook, setBookAvailability, findById_updateById_eq,
      findById_updateById_ne _ _ _ _ hbooks]
  · simp [saveSwap, applySwapHook, setBookAvailability, findById_updateById_eq,
      findById_updateById_ne _ _ _ _ (Ne.symm hbooks)]
  · intro bid h1 h2
    simp [saveSwap, applySwapHook, setBookAvailability,
      findById_updateById_ne _ _ _ _ h1, findById_updateById_ne _ _ _ _ h2]

theorem decline_pending_sets_books_available_witness :
    (findById dbC5x.swaps 1 = some baseSwap ∧ baseSwap.owner = 2 ∧
     baseSwap.status = SwapStatus.pending ∧
     baseSwap.requestedBook ≠ baseSwap.offeredBook) ∧
    (∃ db2, declineSwap dbC5x 2 1 "" = Except.ok db2 ∧
      findById db2.swaps 1 = some { baseSwap with status := .declined, responseMessage := "" } ∧
      findById db2.books baseSwap.requestedBook =
        (findById dbC5x.books baseSwap.requestedBook).map (fun b => { b with isAvailable := true }) ∧
      findById db2.books baseSwap.offeredBook =
        (findById dbC5x.books baseSwap.offeredBook).map (fun b => { b with isAvailable := true }) ∧
      (∀ bid, bid ≠ baseSwap.requestedBook → bid ≠ baseSwap.offeredBook →
        findById db2.books bid = findById dbC5x.books bid) ∧
      db2.users = dbC5x.users ∧ db2.reviews = dbC5x.reviews) :=
  ⟨⟨rfl, rfl, rfl, by decide⟩,
   decline_pending_sets_books_available dbC5x 2 1 baseSwap "" rfl rfl rfl (by decide)⟩

/-- Claim C3: completing an accepted swap increments swapCount on exactly the two
referenced books and totalSwaps on exactly the two users, sets completedAt,
and a repeated complete on the now-completed swap is rejected with the
wrong-source-state error, so nothing is double-counted. -/
theorem complete_accepted_increments_counters
    (db : DB) (uid sid now : Nat) (s : Swap) (rb ob : Book) (ur uo : User)
    (hs : findById db.swaps sid = some s)
    (hpart : s.requester = uid ∨ s.owner = uid)
    (hacc : s.status = SwapStatus.accepted)
    (hbooks : s.requestedBook ≠ s.offeredBook)
    (husers : s.requester ≠ s.owner)
    (hrb : findById db.books s.requestedBook = some rb)
    (hob : findById db.books s.offeredBook = some ob)
    (hur : findById db.users s.requester = some ur)
    (huo : findById db.users s.owner = some uo) :
    ∃ db2, completeSwap db uid sid now = Except.ok db2 ∧
      findById db2.swaps sid = some { s with status := .completed, completedAt := some now } ∧
      findById db2.books s.requestedBook = some { rb with swapCount := rb.swapCount + 1 } ∧
      findById db2.books s.offeredBook = some { ob with swapCount := ob.swapCount + 1 } ∧
      (∀ bid, bid ≠ s.requestedBook → bid ≠ s.offeredBook →
        findById db2.books bid = findById db.books bid) ∧
      findById db2.users s.requester = some { ur with totalSwaps := ur.totalSwaps + 1 } ∧
      findById db2.users s.owner = some { uo with totalSwaps := uo.totalSwaps + 1 } ∧
      (∀ u2, u2 ≠ s.requester → u2 ≠ s.owner →
        findById db2.users u2 = findById db.users u2) ∧
      (∀ uid2 now2 db3, completeSwap db2 uid2 sid now2 ≠ Except.ok db3) := by
  have hcm : s.canModify uid = true := by
    cases hpart with
    | inl h => simp [Swap.canModify, h]
    | inr h => simp [Swap.canModify, h]
  have hrun : completeSwap db uid sid now =
      Except.ok (saveSwap db sid { s with status := .completed, completedAt := some now }) := by
    unfold completeSwap
    rw [hs]
    simp [hcm, hacc]
  have hswap2 :
      findById (saveSwap db sid { s with status := .completed, completedAt := some now }).swaps sid =
        some { s with status := .completed, completedAt := some now } := by
    simp [saveSwap, applySwapHook, incBookSwapCount, incUserTotalSwaps,
      findById_updateById_eq, hs]
  refine ⟨_, hrun, hswap2, ?_, ?_, ?_, ?_, ?_, ?_, ?_⟩
  · simp [saveSwap, applySwapHook, incBookSwapCount, incUserTotalSwaps,
      findById_updateById_eq, findById_updateById_ne _ _ _ _ hbooks, hrb]
  · simp [saveSwap, applySwapHook, incBookSwapCount, incUserTotalSwaps,
      findById_updateById_eq, findById_updateById_ne _ _ _ _ (Ne.symm hbooks), hob]
  · intro bid h1 h2
    simp [saveSwap, applySwapHook, incBookSwapCount, incUserTotalSwaps,
      findById_updateById_ne _ _ _ _ h1, findById_updateById_ne _ _ _ _ h2]
  · simp [saveSwap, applySwapHook, incBookSwapCount, incUserTotalSwaps,
      findById_updateById_eq, findById_updateById_ne _ _ _ _ husers, hur]
  · simp [saveSwap, applySwapHook, incBookSwapCount, incUserTotalSwaps,
      findById_updateById_eq, findById_updateById_ne _ _ _ _ (Ne.symm husers), huo]
  · intro u2 h1 h2
    simp [saveSwap, applySwapHook, incBookSwapCount, incUserTotalSwaps,
      findById_updateById_ne _ _ _ _ h1, findById_updateById_ne _ _ _ _ h2]
  · intro uid2 now2 db3
    unfold completeSwap
    rw [hswap2]
    by_cases hm : Swap.canModify { s with status := SwapStatus.completed, completedAt := some now } uid2 <;>
      simp [hm]

def swapC3 : Swap := { baseSwap with status := .accepted }

def bookC3o : Book := { baseBook with owner := some 1 }

def dbC3 : DB :=
  { books := [(10, baseBook), (11, bookC3o)]
    users := [(1, baseUser), (2, baseUser)]
    swaps := [(1, swapC3)]
    reviews := [] }

theorem complete_accepted_increments_counters_witness :
    (findById dbC3.swaps 1 = some swapC3 ∧ (swapC3.requester = 1 ∨ swapC3.owner = 1) ∧
     swapC3.status = SwapStatus.accepted ∧ swapC3.requestedBook ≠ swapC3.offeredBook ∧
     swapC3.requester ≠ swapC3.owner ∧
     findById dbC3.books swapC3.requestedBook = some baseBook ∧
     findById dbC3.books swapC3.offeredBook = some bookC3o ∧
     findById dbC3.users swapC3.requester = some baseUser ∧
     findById dbC3.users swapC3.owner = some baseUser) ∧
    (∃ db2, completeSwap dbC3 1 1 42 = Except.ok db2 ∧
      findById db2.swaps 1 = some { swapC3 with status := .completed, completedAt := some 42 } ∧
      findById db2.books swapC3.requestedBook = some { baseBook with swapCount := baseBook.swapCount + 1 } ∧
      findById db2.books swapC3.offeredBook = some { bookC3o with swapCount := bookC3o.swapCount + 1 } ∧
      (∀ bid, bid ≠ swapC3.requestedBook → bid ≠ swapC3.offeredBook →
        findById db2.books bid = findById dbC3.books bid) ∧
      findById db2.users swapC3.requester = some { baseUser with totalSwaps := baseUser.totalSwaps + 1 } ∧
      findById db2.users swapC3.owner = some { baseUser with totalSwaps := baseUser.totalSwaps + 1 } ∧
      (∀ u2, u2 ≠ swapC3.requester → u2 ≠ swapC3.owner →
        findById db2.users u2 = findById dbC3.users u2) ∧
      (∀ uid2 now2 db3, completeSwap db2 uid2 1 now2 ≠ Except.ok db3)) :=
  ⟨⟨rfl, Or.inl rfl, rfl, by decide, by decide, rfl, rfl, rfl, rfl⟩,
   complete_accepted_increments_counters dbC3 1 1 42 swapC3 baseBook bookC3o baseUser baseUser
     rfl (Or.inl rfl) rfl (by decide) (by decide) rfl rfl rfl rfl⟩

def dbC6x : DB :=
  { books := [(10, baseBook), (11, { baseBook with owner := some 1 })]
    users := []
    swaps := [(1, { baseSwap with status := .accepted })]
    reviews := [] }

/-- Claim C6 counterexample: a live swap in status accepted exists for the exact
(requester, requestedBook, offeredBook) triple, yet creation succeeds and a
new swap record is stored, because the existence check matches only status
pending. -/
theorem create_ignores_live_accepted_swap :
    ((findById dbC6x.swaps 1).map
      (fun s => (s.status, s.isActive, s.requester, s.requestedBook, s.offeredBook)))
      = some (SwapStatus.accepted, true, 1, 10, 11) ∧
    ((dbAfter (createSwap dbC6x 1 10 11 "" 0 5)).map
      (fun d => (findById d.swaps 5).map Swap.status)) = some (some SwapStatus.pending) := by
  decide

/-- Claim C6 amended: the pre-creation existence check rejects with Conflict
exactly when a pending active swap for the identical triple exists; an
accepted live swap does not trigger it (creation for such books is normally
stopped earlier by the availability check instead). -/
theorem create_duplicate_pending_conflict
    (db : DB) (uid rbid obid : Nat) (message : String) (now newId : Nat)
    (rb ob : Book) (ro : Nat)
    (hrb : findById db.books rbid = some rb)
    (hrbA : rb.isActive = true) (hrbV : rb.isAvailable = true)
    (hob : findById db.books obid = some ob)
    (hobA : ob.isActive = true) (hobV : ob.isAvailable = true)
    (hobO : ob.owner = some uid)
    (hrbO : rb.owner = some ro) (hro : ro ≠ uid)
    (hdup : hasPendingDuplicate db.swaps uid rbid obid = true) :
    createSwap db uid rbid obid message now newId = Except.error ApiError.conflict := by
  unfold createSwap
  rw [hrb, hob]
  simp [hrbA, hrbV, hobA, hobV, Book.canEdit, hobO, hrbO, hro, hdup]

def dbC6w : DB :=
  { books := [(10, baseBook), (11, { baseBook with owner := some 1 })]
    users := []
    swaps := [(1, baseSwap)]
    reviews := [] }

theorem create_duplicate_pending_conflict_witness :
    (findById dbC6w.books 10 = some baseBook ∧ baseBook.isActive = true ∧
     baseBook.isAvailable = true ∧
     findById dbC6w.books 11 = some { baseBook with owner := some 1 } ∧
     ({ baseBook with owner := some 1 } : Book).owner = some 1 ∧
     baseBook.owner = some 2 ∧ (2 : Nat) ≠ 1 ∧
     hasPendingDuplicate dbC6w.swaps 1 10 11 = true) ∧
    createSwap dbC6w 1 10 11 "" 0 5 = Except.error ApiError.conflict :=
  ⟨⟨rfl, rfl, rfl, rfl, rfl, rfl, by decide, by decide⟩,
   create_duplicate_pending_conflict dbC6w 1 10 11 "" 0 5 baseBook
     { baseBook with owner := some 1 } 2 rfl rfl rfl rfl rfl rfl rfl rfl
     (by decide) (by decide)⟩

def dbC9x : DB :=
  { books := [(10, { baseBook with owner := none }), (11, { baseBook with owner := some 3 })]
    users := []
    swaps := []
    reviews := [] }

/-- Claim C9 counterexample: this create-swap request references a book whose
owner is null (the requested book), yet it ends in the defined Forbidden
rejection, not the generic server-error path, because the offered book's
ownership check fails first on a non-null owner. -/
theorem null_owner_request_rejected_forbidden :
    (findById dbC9x.books 10).map Book.owner = some none ∧
    errAfter (createSwap dbC9x 1 10 11 "" 0 5) = some ApiError.forbidden := by decide

/-- Claim C9 amended: when a create-swap request passes the availability checks
and the ownership checks actually reach a null owner — the offered book's
owner is null, or the offered book is the requester's and the requested
book's owner is null — the `toString()` call throws and the request ends in
the generic server-error path, so no defined error is returned and no swap
is created. -/
theorem create_null_owner_server_error
    (db : DB) (uid rbid obid : Nat) (message : String) (now newId : Nat)
    (rb ob : Book)
    (hrb : findById db.books rbid = some rb)
    (hrbA : rb.isActive = true) (hrbV : rb.isAvailable = true)
    (hob : findById db.books obid = some ob)
    (hobA : ob.isActive = true) (hobV : ob.isAvailable = true)
    (hnull : ob.owner = none ∨ (ob.owner = some uid ∧ rb.owner = none)) :
    createSwap db uid rbid obid message now newId = Except.error ApiError.serverError := by
  unfold createSwap
  rw [hrb, hob]
  cases hnull with
  | inl h => simp [hrbA, hrbV, hobA, hobV, Book.canEdit, h]
  | inr h =>
    obtain ⟨h1, h2⟩ := h
    simp [hrbA, hrbV, hobA, hobV, Book.canEdit, h1, h2]

def dbC9w : DB :=
  { books := [(10, baseBook), (11, { baseBook with owner := none })]
    users := []
    swaps := []
    reviews := [] }

theorem create_null_owner_server_error_witness :
    (findById dbC9w.books 10 = some baseBook ∧ baseBook.isActive = true ∧
     baseBook.isAvailable = true ∧
     findById dbC9w.books 11 = some { baseBook with owner := none } ∧
     ({ baseBook with owner := none } : Book).owner = none) ∧
    createSwap dbC9w 1 10 11 "" 0 5 = Except.error ApiError.serverError :=
  ⟨⟨rfl, rfl, rfl, rfl, rfl⟩,
   create_null_owner_server_error dbC9w 1 10 11 "" 0 5 baseBook
     { baseBook with owner := none } rfl rfl rfl rfl rfl rfl (Or.inl rfl)⟩

/-- Claim C8: the rating recomputation returns, for N ≥ 1 active reviews of the
user, the mean of their ratings rounded to one decimal together with N, and
(0, 0) when the user has no active review; and exactly this pair is what
the hook body writes back to the User record. -/
theorem calculateUserRating_correct
    (db : DB) (userId : Nat) (usr : User)
    (hu : findById db.users userId = some usr) :
    ((db.reviews.filter fun p => decide (p.2.reviewee = userId) && p.2.isActive) = [] →
      calculateUserRating db.reviews userId = (0, 0)) ∧
    (∀ rs, rs = db.reviews.filter (fun p => decide (p.2.reviewee = userId) && p.2.isActive) →
      rs ≠ [] →
      calculateUserRating db.reviews userId =
        (roundOneDecimal ((((rs.map fun p => p.2.rating).sum : Nat) : Rat) / (rs.length : Rat)),
         rs.length)) ∧
    findById (updateUserRating db userId).users userId =
      some { usr with
             rating := (calculateUserRating db.reviews userId).1
             totalRatings := (calculateUserRating db.reviews userId).2 } := by
  refine ⟨?_, ?_, ?_⟩
  · intro h
    simp [calculateUserRating, h]
  · intro rs hrs hne
    subst hrs
    simp [calculateUserRating, hne, Nat.cast_list_sum, List.map_map, Function.comp_def]
  · simp [updateUserRating, findById_updateById_eq, hu]

def reviewC8a : Review :=
  { reviewer := 1, reviewee := 2, swap := 3, rating := 5, comment := "", isActive := true }

def reviewC8b : Review :=
  { reviewer := 4, reviewee := 2, swap := 6, rating := 4, comment := "", isActive := true }

def dbC8 : DB :=
  { books := []
    users := [(2, baseUser)]
    swaps := []
    reviews := [(1, reviewC8a), (2, reviewC8b)] }

section
attribute [local semireducible] Rat.mul Rat.add Rat.inv

theorem calculateUserRating_correct_witness :
    findById dbC8.users 2 = some baseUser ∧
    findById (updateUserRating dbC8 2).users 2 =
      some { baseUser with
             rating := (calculateUserRating dbC8.reviews 2).1
             totalRatings := (calculateUserRating dbC8.reviews 2).2 } ∧
    calculateUserRating dbC8.reviews 2 = (9 / 2, 2) :=
  ⟨rfl, (calculateUserRating_correct dbC8 2 baseUser rfl).2.2, by decide⟩

end

theorem createReview_conflict_of_mem
    (db : DB) (uid swapId revieweeId rating : Nat) (comment : String) (newId : Nat)
    (s : Swap) (i : Nat) (r : Review)
    (hrat1 : 1 ≤ rating) (hrat5 : rating ≤ 5)
    (hs : findById db.swaps swapId = some s)
    (hcomp : s.status = SwapStatus.completed)
    (hparty : (s.requester = revieweeId ∧ s.owner = uid) ∨
              (s.owner = revieweeId ∧ s.requester = uid))
    (hmem : (i, r) ∈ db.reviews)
    (hr1 : r.reviewer = uid) (hr2 : r.reviewee = revieweeId) (hr3 : r.swap = swapId) :
    createReview db uid swapId revieweeId rating comment newId =
      Except.error ApiError.conflict := by
  have hnv : ¬ (rating < 1 ∨ 5 < rating) := by omega
  have hcm : s.canModify uid = true := by
    cases hparty with
    | inl h => simp [Swap.canModify, h.2]
    | inr h => simp [Swap.canModify, h.2]
  have hvr : (decide (s.requester = revieweeId) && decide (s.owner = uid) ||
              decide (s.owner = revieweeId) && decide (s.requester = uid)) = true := by
    cases hparty with
    | inl h => simp [h.1, h.2]
    | inr h => simp [h.1, h.2]
  have hany : (db.reviews.any (fun p =>
      decide (p.2.reviewer = uid) && decide (p.2.reviewee = revieweeId) &&
      decide (p.2.swap = swapId))) = true := by
    refine List.any_eq_true.mpr ⟨(i, r), hmem, ?_⟩
    simp [hr1, hr2, hr3]
  unfold createReview
  rw [if_neg hnv, hs]
  simp [hcomp, hcm, hvr, hany]

/-- Claim C10: for a completed swap between the two parties, a createReview
attempt for a (reviewer, reviewee, swap) triple for which any review
record exists — active or soft-deleted, since the existence query has no
isActive filter — is rejected with Conflict; in particular after a
reviewer soft-deletes their own review they can never create a
replacement for the same swap and reviewee. -/
theorem any_review_record_blocks_new_review
    (db : DB) (uid swapId revieweeId rating : Nat) (comment : String) (newId : Nat)
    (s : Swap)
    (hrat1 : 1 ≤ rating) (hrat5 : rating ≤ 5)
    (hs : findById db.swaps swapId = some s)
    (hcomp : s.status = SwapStatus.completed)
    (hparty : (s.requester = revieweeId ∧ s.owner = uid) ∨
              (s.owner = revieweeId ∧ s.requester = uid)) :
    (∀ i r, (i, r) ∈ db.reviews → r.reviewer = uid → r.reviewee = revieweeId →
      r.swap = swapId →
      createReview db uid swapId revieweeId rating comment newId =
        Except.error ApiError.conflict) ∧
    (∀ rid r0 adm db2, findById db.reviews rid = some r0 → r0.reviewer = uid →
      r0.reviewee = revieweeId → r0.swap = swapId →
      deleteReview db uid adm rid = Except.ok db2 →
      createReview db2 uid swapId revieweeId rating comment newId =
        Except.error ApiError.conflict) := by
  constructor
  · intro i r hmem hr1 hr2 hr3
    exact createReview_conflict_of_mem db uid swapId revieweeId rating comment newId
      s i r hrat1 hrat5 hs hcomp hparty hmem hr1 hr2 hr3
  · intro rid r0 adm db2 hfind hr1 hr2 hr3 hdel
    subst hr1
    subst hr2
    subst hr3
    unfold deleteReview at hdel
    rw [hfind] at hdel
    by_cases hact : r0.isActive
    · simp [hact] at hdel
      subst hdel
      refine createReview_conflict_of_mem _ _ _ _ _ comment newId
        s rid { r0 with isActive := false } hrat1 hrat5 hs hcomp hparty
        (mem_of_findById _ _ _ ?_) rfl rfl rfl
      show findById
        (updateById db.reviews rid (fun _ => { r0 with isActive := false })) rid =
        some { r0 with isActive := false }
      simp [findById_updateById_eq, hfind]
    · simp [hact] at hdel

def swapC10 : Swap := { baseSwap with status := .completed }

def reviewC10 : Review :=
  { reviewer := 1, reviewee := 2, swap := 3, rating := 4, comment := "", isActive := false }

def dbC10 : DB :=
  { books := [], users := [], swaps := [(3, swapC10)], reviews := [(7, reviewC10)] }

theorem any_review_record_blocks_new_review_witness :
    ((1 : Nat) ≤ 4 ∧ (4 : Nat) ≤ 5 ∧ findById dbC10.swaps 3 = some swapC10 ∧
     swapC10.status = SwapStatus.completed ∧
     (swapC10.owner = 2 ∧ swapC10.requester = 1) ∧
     (7, reviewC10) ∈ dbC10.reviews ∧ reviewC10.isActive = false) ∧
    createReview dbC10 1 3 2 4 "" 9 = Except.error ApiError.conflict :=
  ⟨⟨by decide, by decide, rfl, rfl, ⟨rfl, rfl⟩, by simp [dbC10], rfl⟩,
   (any_review_record_blocks_new_review dbC10 1 3 2 4 "" 9 swapC10
      (by decide) (by decide) rfl rfl (Or.inr ⟨rfl, rfl⟩)).1
     7 reviewC10 (by simp [dbC10]) rfl rfl rfl⟩

def reviewC1a : Review :=
  { reviewer := 1, reviewee := 2, swap := 3, rating := 5, comment := "", isActive := true }

def reviewC1b : Review :=
  { reviewer := 4, reviewee := 2, swap := 5, rating := 1, comment := "", isActive := true }

def userC1 : User := { baseUser with rating := 3, totalRatings := 2 }

def dbC1 : DB :=
  { books := []
    users := [(2, userC1)]
    swaps := []
    reviews := [(1, reviewC1a), (2, reviewC1b)] }

section
attribute [local semireducible] Rat.mul Rat.add Rat.inv

/-- Claim C1: in a state whose stored aggregate (rating 3, count 2) matches the
two active reviews (5 and 1), the reviewer soft-deletes the rating-1
review.  The delete succeeds and marks the review inactive, yet the stored
aggregate is still (3, 2) while the aggregate of the remaining active
reviews is (5, 1): the soft-delete path saves with only isActive modified,
so the post-save hook guard (rating modified or new document) is false and
the post-remove hook never fires; the recomputation demanded by the spec is
skipped. -/
theorem soft_delete_review_skips_rating_recompute :
    (calculateUserRating dbC1.reviews 2 = (3, 2) ∧
     (findById dbC1.users 2).map (fun u => (u.rating, u.totalRatings)) = some (3, 2)) ∧
    ((dbAfter (deleteReview dbC1 4 false 2)).map
      (fun d => ((findById d.users 2).map (fun u => (u.rating, u.totalRatings)),
                 calculateUserRating d.reviews 2,
                 (findById d.reviews 2).map Review.isActive)))
      = some (some ((3 : Rat), 2), ((5 : Rat), 1), some false) := by decide

end

end BookSwap
